import Mathlib

/-!
Shallow embedding of the routing/navigation core of the `rapid` repository,
with proofs about the embedded functions.

Source files embedded here:
* `packages/core/src/client/query-params.ts` (navigation analysis, layout
  preservation)
* `packages/core/src/routes/index.ts` (route table builder, `joinPaths`)
* `packages/core/src/rapid-server/middleware/compose-middleware.ts`
* `packages/core/src/rapid-server/handlers/handle-api-requests.ts`
* `packages/core/src/rapid-server/modules/asset-manager.ts` and the CSS
  request handler that consumes it.

React components (layouts, page components) and server functions are opaque
values compared by reference identity in the source; they are represented by
`Nat` identifiers, equality of identifiers standing for reference identity.
-/

namespace Rapid

/-!
String primitives. Lean's built-in `String` functions are byte-position
based and do not evaluate inside the kernel, so the JavaScript string
operations the source uses are embedded as character-list operations.
-/

/-- JavaScript `s.startsWith(p)`. -/
def strStartsWith (s p : String) : Bool :=
  p.data.isPrefixOf s.data

/-- JavaScript `s.endsWith(p)`. -/
def strEndsWith (s p : String) : Bool :=
  p.data.isSuffixOf s.data

/-- JavaScript `s.slice(n)`: drop the first `n` characters. -/
def strDrop (s : String) (n : Nat) : String :=
  String.mk (s.data.drop n)

/-- JavaScript `s.slice(0, -1)`: drop the last character. -/
def strDropLast (s : String) : String :=
  String.mk s.data.dropLast

/-- The longest initial run of characters of `s` satisfying `p`. -/
def strTakeWhile (s : String) (p : Char → Bool) : String :=
  String.mk (s.data.takeWhile p)

/-- Occurrence of `n` as a contiguous run of `l`, scanning left to right. -/
def strIncludesAux (n : List Char) : List Char → Bool
  | [] => n.isPrefixOf []
  | c :: rest => n.isPrefixOf (c :: rest) || strIncludesAux n rest

/-- JavaScript string `a.includes(b)`: `b` occurs as a contiguous substring
of `a`. -/
def strIncludes (s needle : String) : Bool :=
  strIncludesAux needle.data s.data

/-- Helper for `urlOrigin`: the origin of a URL whose scheme prefix has been
split off, `none` when the host part is empty. -/
def urlOriginOf (scheme rest : String) : Option String :=
  let host := strTakeWhile rest (fun c => c ≠ '/' && c ≠ '?' && c ≠ '#')
  if host = "" then none else some (scheme ++ host)

/-- Modelled from the platform (WHATWG `new URL(href).origin`), restricted to
what the embedded code exercises: for an absolute `http://` or `https://` URL
with a non-empty host the origin is the scheme plus the host (everything up to
the first `/`, `?` or `#`); for any other string — in particular a relative
path such as `"/internal"` — the `URL` constructor throws, modelled as
`none`. -/
def urlOrigin (href : String) : Option String :=
  if strStartsWith href "https://" then
    urlOriginOf "https://" (strDrop href 8)
  else if strStartsWith href "http://" then
    urlOriginOf "http://" (strDrop href 7)
  else none

/-- `isInternalLink` from `client/query-params.ts`: `new URL(href).origin ===
currentOrigin`, and `false` when the `URL` constructor throws. -/
def isInternalLink (href currentOrigin : String) : Bool :=
  match urlOrigin href with
  | some origin => origin == currentOrigin
  | none => false

/-- The slice of a fetch `Response` the navigation analysis reads: the status
and the `Location` header (`none` when the header is absent). -/
structure NavResponse where
  status : Nat
  location : Option String
deriving DecidableEq, Repr

/-- fetch's `Response.ok`: status in `[200, 300)`. -/
def NavResponse.ok (r : NavResponse) : Bool :=
  200 ≤ r.status && r.status < 300

/-- `NavigationResult` from `client/query-params.ts`. -/
structure NavigationResult where
  success : Bool
  shouldFallbackToFullPage : Bool
  redirectTo : Option String := none
  error : Option String := none
deriving DecidableEq, Repr

/-- The tail of `analyzeNavigationResponse` reached when the response is not a
redirect carrying a `Location` header: `!response.ok` fails, otherwise
succeeds. -/
def analyzeNonRedirect (response : NavResponse) : NavigationResult :=
  if !response.ok then
    { success := false, shouldFallbackToFullPage := true,
      error := some ("Navigation failed: " ++ toString response.status) }
  else
    { success := true, shouldFallbackToFullPage := false }

/-- `analyzeNavigationResponse` from `client/query-params.ts`. -/
def analyzeNavigationResponse (response : NavResponse) (currentOrigin : String) :
    NavigationResult :=
  if 300 ≤ response.status && response.status < 400 then
    match response.location with
    | some location =>
      if strIncludes location "/login" || !isInternalLink location currentOrigin then
        { success := false, shouldFallbackToFullPage := true,
          redirectTo := some location }
      else
        { success := true, shouldFallbackToFullPage := false,
          redirectTo := some location }
    | none => analyzeNonRedirect response
  else analyzeNonRedirect response

/-- The slice of a `ClientRoute` the layout-preservation computation reads:
its ordered layout list (layout components stand as identifiers). -/
structure ClientRoute where
  layouts : List Nat
deriving DecidableEq, Repr

/-- The loop of `calculatePreservedLayouts`: walk both layout lists in step,
counting matches, stopping at the first index where they differ. -/
def preservedLoop : List Nat → List Nat → Nat
  | c :: cs, n :: ns => if c = n then preservedLoop cs ns + 1 else 0
  | _, _ => 0

/-- `calculatePreservedLayouts` from `client/query-params.ts`: `0` for a null
current route, otherwise the count of leading positions where the two layout
lists agree. -/
def calculatePreservedLayouts (currentRoute : Option ClientRoute)
    (newRoute : ClientRoute) : Nat :=
  match currentRoute with
  | none => 0
  | some c => preservedLoop c.layouts newRoute.layouts

/-- `joinPaths` from `routes/index.ts`: empty base or empty path
short-circuits to the other; otherwise one trailing slash is stripped from
the base, one leading slash from the path, and the parts are joined with a
single `/`. -/
def joinPaths (base path : String) : String :=
  if base = "" then path
  else if path = "" then base
  else
    let cleanBase := if strEndsWith base "/" then strDropLast base else base
    let cleanPath := if strStartsWith path "/" then strDrop path 1 else path
    cleanBase ++ "/" ++ cleanPath

/-- The `middleware` field of a flattened route: the source collapses a
one-element middleware stack to the bare function and keeps a list only for
more than one (absent for an empty stack). -/
inductive MwField where
  | single (m : Nat)
  | list (ms : List Nat)
deriving DecidableEq, Repr

/-- How `flattenRoutes`/`flattenApiRoutes` build the `middleware` field from
the current middleware stack. -/
def mkMwField : List Nat → Option MwField
  | [] => none
  | [m] => some (.single m)
  | ms => some (.list ms)

/-- A flattened `PageRoute` (the component and layouts stand as
identifiers; `metadata` is the title, defaulted by the flattener). -/
structure PageRoute where
  path : String
  component : Nat
  layouts : List Nat
  metadata : String
  middleware : Option MwField
  rateLimit : Option Nat
deriving DecidableEq, Repr

/-- A flattened `ApiRoute` as the route builder produces it. -/
structure BuiltApiRoute where
  path : String
  handler : Nat
  middleware : Option MwField
  rateLimit : Option Nat
deriving DecidableEq, Repr

mutual

/-- The `Routes` class: appended segments plus the mutable `currentLayout`
and `currentMiddleware` fields. -/
inductive Routes where
  | mk (segments : List RouteSegment) (currentLayout : Option Nat)
      (currentMiddleware : Option Nat)

/-- A `SegmentEntry`: the declared path and its resolver descriptor. -/
inductive RouteSegment where
  | mk (path : String) (resolver : SegResolver)

/-- A `SegmentDescriptor`: `page(...)`, `api(...)` or `routes(...)`. -/
inductive SegResolver where
  | page (component : Nat) (metadata : Option String) (rateLimit : Option Nat)
  | api (handler : Nat) (rateLimit : Option Nat)
  | routes (r : Routes)

end

/-- `new Routes()`. -/
def Routes.empty : Routes := .mk [] none none

/-- `Routes.layout`: overwrite the builder's `currentLayout` field. -/
def Routes.layout : Routes → Nat → Routes
  | .mk segs _ m, l => .mk segs (some l) m

/-- `Routes.middleware`: overwrite the builder's `currentMiddleware` field. -/
def Routes.middlewareSet : Routes → Nat → Routes
  | .mk segs l _, m => .mk segs l (some m)

/-- `Routes.segment`: append a segment entry. -/
def Routes.segment : Routes → String → SegResolver → Routes
  | .mk segs l m, path, r => .mk (segs ++ [.mk path r]) l m

mutual

/-- `Routes.flattenRoutes`: the layout and middleware stacks are extended by
this table's `currentLayout`/`currentMiddleware` (the field values at flatten
time), then every segment is processed in declaration order. -/
def Routes.flattenRoutes : Routes → String → List Nat → List Nat → List PageRoute
  | .mk segments currentLayout currentMiddleware, basePath, parentLayouts,
      parentMiddleware =>
    let currentLayouts := match currentLayout with
      | some l => parentLayouts ++ [l]
      | none => parentLayouts
    let currentMwStack := match currentMiddleware with
      | some m => parentMiddleware ++ [m]
      | none => parentMiddleware
    flattenSegs segments basePath currentLayouts currentMwStack

/-- The loop body of `flattenRoutes` over the segment list: pages emit a
route with the current chains, nested tables recurse, API segments are
skipped. -/
def flattenSegs : List RouteSegment → String → List Nat → List Nat → List PageRoute
  | [], _, _, _ => []
  | .mk path resolver :: rest, basePath, currentLayouts, currentMwStack =>
    let fullPath := joinPaths basePath path
    (match resolver with
      | .page component metadata rateLimit =>
        [{ path := fullPath, component, layouts := currentLayouts,
           metadata := metadata.getD ("Page " ++ fullPath),
           middleware := mkMwField currentMwStack, rateLimit }]
      | .api _ _ => []
      | .routes r => r.flattenRoutes fullPath currentLayouts currentMwStack)
      ++ flattenSegs rest basePath currentLayouts currentMwStack

end

/-- `Routes.getPageRoutes`: flatten from the root with empty chains. -/
def Routes.getPageRoutes (r : Routes) : List PageRoute :=
  r.flattenRoutes "" [] []

/-!
Middleware pipeline (`compose-middleware.ts`) and the API request handler
(`handle-api-requests.ts`).
-/

/-- The slice of a `Response` the server code builds and inspects: status,
body and headers. -/
structure Resp where
  status : Nat := 200
  body : String := ""
  headers : List (String × String) := []
deriving DecidableEq, Repr

/-- `MiddlewareResult`: a middleware returns a `Response` (short-circuit), a
`ResponseModifier` (a response transformer), or `null`. -/
inductive MwResult where
  | response (r : Resp)
  | modifier (f : Resp → Resp)
  | null

/-- `result instanceof Response`. -/
def MwResult.isResponse : MwResult → Bool
  | .response _ => true
  | _ => false

/-- An opaque request value (its contents never matter to the embedded
code). -/
structure Request where
  id : Nat
deriving DecidableEq, Repr

/-- The slice of a `URL` the dispatcher reads. -/
structure Url where
  pathname : String
deriving DecidableEq, Repr

/-- A `ServerFunction`: `(req, url) → Response | ResponseModifier | null`
(a type alias, as in the source). -/
abbrev Middleware : Type := Request → Url → MwResult

/-- The loop of `composeMiddleware`, carrying the `responseModifiers`
accumulator: a middleware returning a `Response` is returned immediately; a
modifier is pushed; `null` advances. When the loop completes, a non-empty
accumulator is folded into one composed modifier applied in collection
order, and an empty one yields `null`. -/
def composeLoop (req : Request) (url : Url) :
    List Middleware → List (Resp → Resp) → MwResult
  | [], responseModifiers =>
    if responseModifiers.length > 0 then
      .modifier (fun response => responseModifiers.foldl (fun cur f => f cur) response)
    else .null
  | middleware :: rest, responseModifiers =>
    match middleware req url with
    | .response r => .response r
    | .modifier f => composeLoop req url rest (responseModifiers ++ [f])
    | .null => composeLoop req url rest responseModifiers

/-- `composeMiddleware` from `compose-middleware.ts`. -/
def composeMiddleware (middlewares : List Middleware) (req : Request) (url : Url) :
    MwResult :=
  composeLoop req url middlewares []

/-- The modifiers the pipeline collects, in iteration order (stated for the
theorems; the loop above builds the same list in its accumulator). -/
def collectModifiers (middlewares : List Middleware) (req : Request) (url : Url) :
    List (Resp → Resp) :=
  middlewares.filterMap fun mw =>
    match mw req url with
    | .modifier f => some f
    | _ => none

/-- `ServerFunction | ServerFunction[]` for an API route's middleware
field. -/
inductive ApiMwField where
  | one (m : Middleware)
  | many (ms : List Middleware)

/-- The internal `ApiRoute`: path, handler, optional single-or-list
middleware, optional rate limit. A handler result that is not a `Response`
is embedded as `none`. -/
structure ApiRoute where
  path : String
  handler : Request → Url → Option Resp
  middleware : Option ApiMwField
  rateLimit : Option Nat := none

/-- `Array.isArray(middleware) ? middleware : [middleware]`, and no
middleware at all for an absent field. -/
def middlewaresOf : Option ApiMwField → List Middleware
  | none => []
  | some (.one m) => [m]
  | some (.many ms) => ms

/-- The dispatcher's API path match: pathname equals the route path or
extends it past a `/`. -/
def matchesApiPath (url : Url) (path : String) : Bool :=
  url.pathname == path || strStartsWith url.pathname (path ++ "/")

/-- The middleware loop of `handleAPIRequest`: a middleware returning a
`Response` ends the request with it; a function-valued result or `null`
just advances (the source comment: a `ResponseModifier` is not applied,
"for now, we'll just continue to the next middleware"). -/
def runApiMiddlewares (req : Request) (url : Url) : List Middleware → Option Resp
  | [] => none
  | middleware :: rest =>
    match middleware req url with
    | .response r => some r
    | _ => runApiMiddlewares req url rest

/-- `handleAPIRequest` from `handle-api-requests.ts`: scan routes in order;
on a path match run the route's middleware then its handler; a handler
result that is not a `Response` lets the scan continue; `null` when the
scan is exhausted. -/
def handleAPIRequest (url : Url) (req : Request) : List ApiRoute → Option Resp
  | [] => none
  | apiRoute :: rest =>
    if matchesApiPath url apiRoute.path then
      match runApiMiddlewares req url (middlewaresOf apiRoute.middleware) with
      | some r => some r
      | none =>
        match apiRoute.handler req url with
        | some r => some r
        | none => handleAPIRequest url req rest
    else handleAPIRequest url req rest

/-!
Asset manager (`asset-manager.ts`) and the CSS request handler. The external
collaborators — the prebuilt-artifact lookup and the bundle compilers — are
passed as explicit parameters. The third component of a bundle result is
instrumentation recording whether tier (c), the compile function, produced
the bundle.
-/

/-- The `AssetCache` struct. -/
structure AssetCache where
  clientBundle : Option String
  cssBundle : Option String
deriving DecidableEq, Repr

/-- `createAssetCache`. -/
def createAssetCache : AssetCache := ⟨none, none⟩

/-- JavaScript truthiness of a `string | null` value: `null` and the empty
string are falsy. -/
def truthy : Option String → Bool
  | none => false
  | some s => s ≠ ""

/-- `getClientBundle`: cached value if truthy, else a truthy prebuilt
artifact adopted into the cache, else the compiled bundle stored into the
cache. -/
def getClientBundle (cache : AssetCache) (prebuilt : Option String)
    (compileClientBundle : Unit → String) : String × AssetCache × Bool :=
  if truthy cache.clientBundle then
    (cache.clientBundle.getD "", cache, false)
  else if truthy prebuilt then
    (prebuilt.getD "", { cache with clientBundle := prebuilt }, false)
  else
    let compiled := compileClientBundle ()
    (compiled, { cache with clientBundle := some compiled }, true)

/-- `getCSSBundle`: as `getClientBundle`, except that a missing CSS compiler
throws and a compiler exception is re-thrown (the cache is left as it was:
an exceptional return carries no updated struct). -/
def getCSSBundle (cache : AssetCache) (prebuilt : Option String)
    (cssCompiler : Option (Unit → Except String String)) :
    Except String (String × AssetCache × Bool) :=
  if truthy cache.cssBundle then
    .ok (cache.cssBundle.getD "", cache, false)
  else if truthy prebuilt then
    .ok (prebuilt.getD "", { cache with cssBundle := prebuilt }, false)
  else
    match cssCompiler with
    | none => .error "No CSS compiler provided to asset manager"
    | some compiler =>
      match compiler () with
      | .ok compiled => .ok (compiled, { cache with cssBundle := some compiled }, true)
      | .error e => .error e

/-- `createAssetResponse`: a 200 with content-type, cache-control, the fixed
security headers, and the dev-mode no-cache extras. -/
def createAssetResponse (content contentType : String) (isDev : Bool) : Resp :=
  { status := 200, body := content,
    headers :=
      [("Content-Type", contentType),
       ("Cache-Control", if isDev then "no-cache" else "public, max-age=31536000"),
       ("X-Frame-Options", "DENY"),
       ("X-Content-Type-Options", "nosniff"),
       ("Referrer-Policy", "strict-origin-when-cross-origin")] ++
      (if isDev then [("Pragma", "no-cache"), ("Expires", "0")] else []) }

/-- `createAssetErrorResponse`: a 500 carrying the fallback body and the
fixed security headers. -/
def createAssetErrorResponse (contentType : String) (fallbackContent : String := "") :
    Resp :=
  { status := 500, body := fallbackContent,
    headers :=
      [("Content-Type", contentType),
       ("X-Frame-Options", "DENY"),
       ("X-Content-Type-Options", "nosniff"),
       ("Referrer-Policy", "strict-origin-when-cross-origin")] }

/-- `handleCSSRequest`: a successful bundle becomes a `text/css` asset
response with the updated cache; a failure becomes the 500 fallback response
with the original cache. -/
def handleCSSRequest (assetCache : AssetCache) (prebuilt : Option String)
    (cssCompiler : Option (Unit → Except String String)) (isDev : Bool) :
    Resp × AssetCache :=
  match getCSSBundle assetCache prebuilt cssCompiler with
  | .ok (bundle, updatedCache, _) =>
    (createAssetResponse bundle "text/css" isDev, updatedCache)
  | .error _ =>
    (createAssetErrorResponse "text/css" "/* CSS compilation failed */", assetCache)

/-!
Theorems.
-/

/-- The table of the layout-inheritance scenario: a page segment `"a"` is
declared, then `layout(L2)` is called, then a page segment `"b"` is
declared (layouts stand as identifiers, `L2 = 2`). -/
def layoutBugTable : Routes :=
  ((Routes.empty.segment "a" (.page 10 none none)).layout 2).segment "b"
    (.page 11 none none)

/-- C1: the claim says a 302 with `Location: /internal` on the same origin
yields `{success := true, shouldFallbackToFullPage := false}`. The code
instead falls back: `new URL("/internal")` throws (a relative URL has no
scheme), so `isInternalLink` is `false` for every relative location and the
redirect is treated as external. -/
theorem c1_relative_redirect_falls_back_to_full_page :
    analyzeNavigationResponse { status := 302, location := some "/internal" }
        "https://app.example" =
      { success := false, shouldFallbackToFullPage := true,
        redirectTo := some "/internal" } ∧
    isInternalLink "/internal" "https://app.example" = false ∧
    analyzeNavigationResponse
        { status := 302, location := some "https://other.example/login" }
        "https://app.example" =
      { success := false, shouldFallbackToFullPage := true,
        redirectTo := some "https://other.example/login" } := by
  refine ⟨?_, ?_, ?_⟩ <;> decide

/-- C2: the claim says a page segment added before the table's `layout(L2)`
call flattens with the parent chain `[L1]` only. The code reads the final
`currentLayout` field at flatten time and applies it to every segment of
the table: flattening under parent chain `[1]`, the segment `"a"` declared
before `layout 2` still gets layout chain `[1, 2]`. -/
theorem c2_layout_applies_to_segments_declared_before_the_call :
    layoutBugTable.flattenRoutes "/base" [1] [] =
      [{ path := "/base/a", component := 10, layouts := [1, 2],
         metadata := "Page /base/a", middleware := none, rateLimit := none },
       { path := "/base/b", component := 11, layouts := [1, 2],
         metadata := "Page /base/b", middleware := none, rateLimit := none }] := by
  decide

/-- `preservedLoop` never exceeds the first list's length. -/
theorem preservedLoop_le_left (a b : List Nat) : preservedLoop a b ≤ a.length := by
  induction a generalizing b with
  | nil => simp [preservedLoop]
  | cons x xs ih =>
    cases b with
    | nil => simp [preservedLoop]
    | cons y ys =>
      by_cases h : x = y <;> simp [preservedLoop, h]
      exact ih ys

/-- `preservedLoop` never exceeds the second list's length. -/
theorem preservedLoop_le_right (a b : List Nat) : preservedLoop a b ≤ b.length := by
  induction a generalizing b with
  | nil => simp [preservedLoop]
  | cons x xs ih =>
    cases b with
    | nil => simp [preservedLoop]
    | cons y ys =>
      by_cases h : x = y <;> simp [preservedLoop, h]
      exact ih ys

/-- Both lists agree on their first `preservedLoop a b` positions. -/
theorem preservedLoop_take (a b : List Nat) :
    a.take (preservedLoop a b) = b.take (preservedLoop a b) := by
  induction a generalizing b with
  | nil => simp [preservedLoop]
  | cons x xs ih =>
    cases b with
    | nil => simp [preservedLoop]
    | cons y ys =>
      by_cases h : x = y <;> simp [preservedLoop, h]
      exact ih ys

/-- Any in-range agreeing prefix length is at most `preservedLoop a b`. -/
theorem le_preservedLoop (a b : List Nat) (m : Nat) (hma : m ≤ a.length)
    (hmb : m ≤ b.length) (h : a.take m = b.take m) : m ≤ preservedLoop a b := by
  induction a generalizing b m with
  | nil => simp at hma; simp [hma]
  | cons x xs ih =>
    cases m with
    | zero => exact Nat.zero_le _
    | succ k =>
      cases b with
      | nil => simp at hmb
      | cons y ys =>
        simp only [List.take_succ_cons, List.cons.injEq] at h
        obtain ⟨rfl, htail⟩ := h
        simp only [List.length_cons, Nat.succ_le_succ_iff] at hma hmb
        simpa [preservedLoop] using ih ys k hma hmb htail

/-- C3: `calculatePreservedLayouts` computes the length of the longest
common positional prefix of the two routes' layout lists: the two lists
agree up to the result, the result is within both lengths, no longer
in-range agreeing prefix exists, and the spec's three examples hold. -/
theorem c3_calculatePreservedLayouts_is_longest_common_prefix
    (c t : ClientRoute) :
    c.layouts.take (calculatePreservedLayouts (some c) t) =
        t.layouts.take (calculatePreservedLayouts (some c) t) ∧
    calculatePreservedLayouts (some c) t ≤ c.layouts.length ∧
    calculatePreservedLayouts (some c) t ≤ t.layouts.length ∧
    (∀ m, m ≤ c.layouts.length → m ≤ t.layouts.length →
        c.layouts.take m = t.layouts.take m →
        m ≤ calculatePreservedLayouts (some c) t) ∧
    calculatePreservedLayouts (some ⟨[1, 2]⟩) ⟨[1, 2]⟩ = 2 ∧
    calculatePreservedLayouts (some ⟨[1, 2]⟩) ⟨[1, 3]⟩ = 1 ∧
    calculatePreservedLayouts (some ⟨[1]⟩) ⟨[2]⟩ = 0 := by
  refine ⟨preservedLoop_take _ _, preservedLoop_le_left _ _,
    preservedLoop_le_right _ _, fun m hma hmb h => le_preservedLoop _ _ m hma hmb h,
    by decide, by decide, by decide⟩

/-- A one-element list is a prefix exactly when it is the head. -/
theorem singleton_isPrefixOf (c : Char) (l : List Char) :
    [c].isPrefixOf l = (l.head? == some c) := by
  cases l with
  | nil => rfl
  | cons h t => simp [List.isPrefixOf, BEq.comm]

/-- A one-element list is a suffix exactly when it is the last element. -/
theorem singleton_isSuffixOf (c : Char) (l : List Char) :
    [c].isSuffixOf l = (l.getLast? == some c) := by
  show [c].reverse.isPrefixOf l.reverse = _
  rw [List.reverse_singleton, singleton_isPrefixOf, List.head?_reverse]

/-- C9: `joinPaths` short-circuits on an empty base or path; otherwise it
joins the parts with exactly one `/`, dropping one trailing slash from the
base and one leading slash from the path (stated over the character
lists), and the spec's three examples hold. -/
theorem c9_joinPaths_spec (base path : String) :
    (base = "" → joinPaths base path = path) ∧
    (base ≠ "" → path = "" → joinPaths base path = base) ∧
    (base ≠ "" → path ≠ "" →
      (joinPaths base path).data =
        (if base.data.getLast? = some '/' then base.data.dropLast else base.data)
          ++ '/' ::
          (if path.data.head? = some '/' then path.data.tail else path.data)) ∧
    joinPaths "/base/" "/seg" = "/base/seg" ∧
    joinPaths "" "x" = "x" ∧
    joinPaths "/base" "" = "/base" := by
  refine ⟨fun hb => by simp [joinPaths, hb], fun hb hp => by simp [joinPaths, hb, hp],
    fun hb hp => ?_, by decide, by decide, by decide⟩
  simp only [joinPaths, hb, hp, if_false, ite_false, strEndsWith, strStartsWith,
    singleton_isSuffixOf, singleton_isPrefixOf, show ("/" : String).data = ['/'] from rfl,
    beq_iff_eq]
  by_cases h1 : base.data.getLast? = some '/' <;>
    by_cases h2 : path.data.head? = some '/' <;>
      simp [h1, h2, strDropLast, strDrop, String.data_append, List.drop_one,
        show ("/" : String).data = ['/'] from rfl]

/-- Whatever modifiers the accumulator holds, a middleware returning a
`Response` after a run of non-`Response` middlewares ends the loop with
exactly that response. -/
theorem composeLoop_response (req : Request) (url : Url) (post : List Middleware)
    (mw : Middleware) (r : Resp) (hmw : mw req url = .response r) :
    ∀ (pre : List Middleware) (acc : List (Resp → Resp)),
      (∀ m ∈ pre, (m req url).isResponse = false) →
      composeLoop req url (pre ++ mw :: post) acc = .response r := by
  intro pre
  induction pre with
  | nil => intro acc _; simp [composeLoop, hmw]
  | cons p ps ih =>
    intro acc hpre
    have hp := hpre p (List.mem_cons_self p ps)
    cases hcase : p req url with
    | response r2 => rw [hcase] at hp; simp [MwResult.isResponse] at hp
    | modifier f =>
      simp only [List.cons_append, composeLoop, hcase]
      exact ih _ fun m hm => hpre m (List.mem_cons_of_mem p hm)
    | null =>
      simp only [List.cons_append, composeLoop, hcase]
      exact ih _ fun m hm => hpre m (List.mem_cons_of_mem p hm)

/-- C4: when the middlewares before `mw` all return a modifier or `null`
and `mw` returns a `Response`, the pipeline's result is exactly that
response, whatever middlewares follow (they are never consulted) and
whatever modifiers were collected before. -/
theorem c4_composeMiddleware_short_circuits_on_first_response
    (pre post : List Middleware) (mw : Middleware) (req : Request) (url : Url)
    (r : Resp) (hpre : ∀ m ∈ pre, (m req url).isResponse = false)
    (hmw : mw req url = .response r) :
    composeMiddleware (pre ++ mw :: post) req url = .response r :=
  composeLoop_response req url post mw r hmw pre [] hpre

/-- C4 at a concrete pipeline: a modifier middleware, then a 429 response,
then a middleware that is never reached. -/
theorem c4_short_circuit_witness :
    composeMiddleware
        [fun _ _ => .modifier (fun resp => { resp with status := resp.status + 1 }),
         fun _ _ => .response { status := 429 },
         fun _ _ => .null] ⟨0⟩ ⟨"/limited"⟩ = .response { status := 429 } := by
  have h := c4_composeMiddleware_short_circuits_on_first_response
    [fun _ _ => .modifier (fun resp => { resp with status := resp.status + 1 })]
    [fun _ _ => .null] (fun _ _ => .response { status := 429 }) ⟨0⟩ ⟨"/limited"⟩
    { status := 429 }
    (by intro m hm; rw [List.mem_singleton] at hm; subst hm; rfl) rfl
  exact h

/-- The loop of `composeMiddleware`, run over middlewares none of which
returns a `Response`, ends with the accumulator extended by the modifiers
in iteration order, composed first-collected-first-applied (or `null` when
nothing was collected). -/
theorem composeLoop_collect (req : Request) (url : Url) :
    ∀ (middlewares : List Middleware) (acc : List (Resp → Resp)),
      (∀ m ∈ middlewares, (m req url).isResponse = false) →
      composeLoop req url middlewares acc =
        if (acc ++ collectModifiers middlewares req url).isEmpty then .null
        else .modifier fun response =>
          (acc ++ collectModifiers middlewares req url).foldl
            (fun cur f => f cur) response := by
  intro middlewares
  induction middlewares with
  | nil =>
    intro acc _
    cases acc with
    | nil => simp [composeLoop, collectModifiers]
    | cons f fs => simp [composeLoop, collectModifiers]
  | cons m ms ih =>
    intro acc h
    have hm0 := h m (List.mem_cons_self m ms)
    cases hm : m req url with
    | response r => rw [hm] at hm0; simp [MwResult.isResponse] at hm0
    | modifier f =>
      simp only [composeLoop, hm, collectModifiers, List.filterMap_cons]
      rw [ih (acc ++ [f]) fun x hx => h x (List.mem_cons_of_mem m hx)]
      simp [collectModifiers, List.append_assoc]
    | null =>
      simp only [composeLoop, hm, collectModifiers, List.filterMap_cons]
      rw [ih acc fun x hx => h x (List.mem_cons_of_mem m hx)]
      simp [collectModifiers]

/-- C5: when no middleware returns a `Response`, the pipeline returns
`null` for an empty collected-modifier list and otherwise one composed
modifier applying the collected modifiers in collection order
(first-collected applied first); in particular two modifier middlewares
`f` then `g` compose to `fun x => g (f x)`. -/
theorem c5_composeMiddleware_composes_modifiers_in_collection_order
    (middlewares : List Middleware) (req : Request) (url : Url)
    (h : ∀ m ∈ middlewares, (m req url).isResponse = false) :
    (composeMiddleware middlewares req url =
      if (collectModifiers middlewares req url).isEmpty then .null
      else .modifier fun response =>
        (collectModifiers middlewares req url).foldl (fun cur f => f cur) response) ∧
    (∀ f g : Resp → Resp,
      composeMiddleware [fun _ _ => .modifier f, fun _ _ => .modifier g] req url =
        .modifier fun x => g (f x)) := by
  refine ⟨?_, fun f g => rfl⟩
  have h0 := composeLoop_collect req url middlewares [] h
  simpa [composeMiddleware] using h0

/-- C5 at a concrete pipeline: one modifier middleware and one `null`
middleware compose to exactly the collected modifier. -/
theorem c5_modifier_witness :
    (composeMiddleware
        [fun _ _ => .modifier (fun resp => { resp with status := resp.status + 1 }),
         fun _ _ => .null] ⟨1⟩ ⟨"/page"⟩ =
      if (collectModifiers
            [fun _ _ => .modifier (fun resp => { resp with status := resp.status + 1 }),
             fun _ _ => .null] ⟨1⟩ ⟨"/page"⟩).isEmpty then .null
      else .modifier fun response =>
        (collectModifiers
            [fun _ _ => .modifier (fun resp => { resp with status := resp.status + 1 }),
             fun _ _ => .null] ⟨1⟩ ⟨"/page"⟩).foldl (fun cur f => f cur) response) ∧
    (∀ f g : Resp → Resp,
      composeMiddleware [fun _ _ => .modifier f, fun _ _ => .modifier g] ⟨1⟩ ⟨"/page"⟩ =
        .modifier fun x => g (f x)) :=
  c5_composeMiddleware_composes_modifiers_in_collection_order
    [fun _ _ => .modifier (fun resp => { resp with status := resp.status + 1 }),
     fun _ _ => .null] ⟨1⟩ ⟨"/page"⟩
    (by
      intro m hm
      rw [List.mem_cons, List.mem_singleton] at hm
      rcases hm with rfl | rfl <;> rfl)

/-- The API route of the C6 counterexample: its middleware answers with a
429 response and its handler never returns a `Response`. -/
def rateLimitedRoute : ApiRoute :=
  { path := "/api/limited", handler := fun _ _ => none,
    middleware := some (.one fun _ _ => .response { status := 429 }) }

/-- C6 is violated as stated: on `/api/limited` no tried handler ever
returns a `Response` (the only route's handler is constantly not a
`Response`), yet `handleAPIRequest` does not return `null` — it returns
the 429 response produced by that route's middleware. -/
theorem c6_middleware_response_refutes_null_clause :
    handleAPIRequest ⟨"/api/limited"⟩ ⟨0⟩ [rateLimitedRoute] =
      some { status := 429 } ∧
    (∀ req url, rateLimitedRoute.handler req url = none) :=
  ⟨by decide, fun _ _ => rfl⟩

/-- C6 as amended: `handleAPIRequest` tries exactly the routes whose path
matches (equality or `/`-prefix), in registration order; a tried route
whose middleware produces no `Response` and whose handler returns no
`Response` lets the scan continue; and the result is `null` when every
matching route's middleware and handler produce no `Response`. -/
theorem c6_handleAPIRequest_scan (url : Url) (req : Request) :
    (∀ routes : List ApiRoute,
      handleAPIRequest url req routes =
        handleAPIRequest url req (routes.filter fun rt => matchesApiPath url rt.path)) ∧
    (∀ (rt : ApiRoute) (routes : List ApiRoute),
      matchesApiPath url rt.path = true →
      runApiMiddlewares req url (middlewaresOf rt.middleware) = none →
      rt.handler req url = none →
      handleAPIRequest url req (rt :: routes) = handleAPIRequest url req routes) ∧
    (∀ routes : List ApiRoute,
      (∀ rt ∈ routes, matchesApiPath url rt.path = true →
        runApiMiddlewares req url (middlewaresOf rt.middleware) = none ∧
        rt.handler req url = none) →
      handleAPIRequest url req routes = none) := by
  refine ⟨?_, ?_, ?_⟩
  · intro routes
    induction routes with
    | nil => rfl
    | cons rt rest ih =>
      by_cases hmatch : matchesApiPath url rt.path
      · simp only [handleAPIRequest, List.filter_cons, hmatch, if_true]
        cases runApiMiddlewares req url (middlewaresOf rt.middleware) with
        | some r => rfl
        | none =>
          cases rt.handler req url with
          | some r => rfl
          | none => exact ih
      · simp only [handleAPIRequest, List.filter_cons, hmatch, if_false,
          Bool.false_eq_true]
        exact ih
  · intro rt routes hmatch hmw hh
    simp [handleAPIRequest, hmatch, hmw, hh]
  · intro routes h
    induction routes with
    | nil => rfl
    | cons rt rest ih =>
      have hrest := ih fun x hx hm => h x (List.mem_cons_of_mem rt hx) hm
      by_cases hmatch : matchesApiPath url rt.path
      · obtain ⟨hmw, hh⟩ := h rt (List.mem_cons_self rt rest) hmatch
        simp [handleAPIRequest, hmatch, hmw, hh, hrest]
      · simp [handleAPIRequest, hmatch, hrest]

/-- Replacing one route of the scan by a route with the same path and
handler whose middleware run produces the same outcome does not change the
dispatcher's result. -/
theorem handleAPIRequest_route_congr (url : Url) (req : Request)
    (rs2 : List ApiRoute) (rt rt' : ApiRoute) (hpath : rt'.path = rt.path)
    (hhandler : rt'.handler = rt.handler)
    (hmw : runApiMiddlewares req url (middlewaresOf rt'.middleware) =
      runApiMiddlewares req url (middlewaresOf rt.middleware)) :
    ∀ rs1 : List ApiRoute,
      handleAPIRequest url req (rs1 ++ rt :: rs2) =
        handleAPIRequest url req (rs1 ++ rt' :: rs2) := by
  intro rs1
  induction rs1 with
  | nil =>
    simp only [List.nil_append, handleAPIRequest, hpath, hhandler, hmw]
  | cons r rs ih =>
    by_cases hr : matchesApiPath url r.path
    · simp only [List.cons_append, handleAPIRequest, hr, if_true]
      cases runApiMiddlewares req url (middlewaresOf r.middleware) with
      | some resp => rfl
      | none =>
        cases r.handler req url with
        | some resp => rfl
        | none => exact ih
    · simp only [List.cons_append, handleAPIRequest, hr, if_false, Bool.false_eq_true]
      exact ih

/-- In the API middleware loop a middleware returning a response modifier
behaves exactly like one returning `null`: the loop just advances. -/
theorem runApiMiddlewares_modifier_as_null (req : Request) (url : Url)
    (mw : Middleware) (f : Resp → Resp) (hmw : mw req url = .modifier f)
    (pre post : List Middleware) :
    runApiMiddlewares req url (pre ++ mw :: post) =
      runApiMiddlewares req url (pre ++ (fun _ _ => .null) :: post) := by
  induction pre with
  | nil => simp [runApiMiddlewares, hmw]
  | cons p ps ih =>
    simp only [List.cons_append, runApiMiddlewares]
    cases p req url <;> simp [ih]

/-- C10: a middleware of an API route that returns a function-valued
response modifier is discarded entirely — the dispatcher's result is the
same as if that middleware had returned `null`, both for a middleware list
and for a single middleware, at any position of the scan. -/
theorem c10_api_modifier_discarded (url : Url) (req : Request)
    (rs1 rs2 : List ApiRoute) (path : String)
    (handler : Request → Url → Option Resp) (rateLimit : Option Nat)
    (pre post : List Middleware) (mw : Middleware) (f : Resp → Resp)
    (hmw : mw req url = .modifier f) :
    (handleAPIRequest url req (rs1 ++
        { path, handler, middleware := some (.many (pre ++ mw :: post)),
          rateLimit } :: rs2) =
      handleAPIRequest url req (rs1 ++
        { path, handler, middleware := some (.many (pre ++ (fun _ _ => .null) :: post)),
          rateLimit } :: rs2)) ∧
    (handleAPIRequest url req (rs1 ++
        { path, handler, middleware := some (.one mw), rateLimit } :: rs2) =
      handleAPIRequest url req (rs1 ++
        { path, handler, middleware := some (.one fun _ _ => .null),
          rateLimit } :: rs2)) := by
  constructor
  · exact handleAPIRequest_route_congr url req rs2
      { path, handler, middleware := some (.many (pre ++ mw :: post)), rateLimit }
      { path, handler,
        middleware := some (.many (pre ++ (fun _ _ => .null) :: post)), rateLimit }
      rfl rfl
      (runApiMiddlewares_modifier_as_null req url mw f hmw pre post).symm rs1
  · exact handleAPIRequest_route_congr url req rs2
      { path, handler, middleware := some (.one mw), rateLimit }
      { path, handler, middleware := some (.one fun _ _ => .null), rateLimit }
      rfl rfl
      (runApiMiddlewares_modifier_as_null req url mw f hmw [] []).symm rs1

/-- C10 at a concrete input: a modifier-returning middleware on a matching
route leaves the handler's response untouched. -/
theorem c10_api_modifier_discarded_witness :
    (handleAPIRequest ⟨"/api/data"⟩ ⟨7⟩
        [{ path := "/api/data", handler := fun _ _ => some { status := 200, body := "ok" },
           middleware := some (.many ([] ++ (fun _ _ =>
             .modifier fun resp => { resp with status := resp.status + 1 }) :: [])),
           rateLimit := none }] =
      handleAPIRequest ⟨"/api/data"⟩ ⟨7⟩
        [{ path := "/api/data", handler := fun _ _ => some { status := 200, body := "ok" },
           middleware := some (.many ([] ++ (fun _ _ => .null) :: [])),
           rateLimit := none }]) ∧
    (handleAPIRequest ⟨"/api/data"⟩ ⟨7⟩
        [{ path := "/api/data", handler := fun _ _ => some { status := 200, body := "ok" },
           middleware := some (.one fun _ _ =>
             .modifier fun resp => { resp with status := resp.status + 1 }),
           rateLimit := none }] =
      handleAPIRequest ⟨"/api/data"⟩ ⟨7⟩
        [{ path := "/api/data", handler := fun _ _ => some { status := 200, body := "ok" },
           middleware := some (.one fun _ _ => .null), rateLimit := none }]) :=
  c10_api_modifier_discarded ⟨"/api/data"⟩ ⟨7⟩ [] []
    "/api/data" (fun _ _ => some { status := 200, body := "ok" }) none [] []
    (fun _ _ => .modifier fun resp => { resp with status := resp.status + 1 })
    (fun resp => { resp with status := resp.status + 1 }) rfl

/-- C7 is violated as stated: with an empty cache, no prebuilt artifact and
a compiler that produces the empty string, the two calls return the same
bundle, but an empty cached string is falsy, so the second call misses the
cache and invokes the compiler again — tier (c) runs in both calls, not at
most once. -/
theorem c7_empty_compile_output_refutes_at_most_once :
    (getClientBundle ⟨none, none⟩ none fun _ => "").1 = "" ∧
    (getClientBundle ⟨none, none⟩ none fun _ => "").2.2 = true ∧
    (getClientBundle (getClientBundle ⟨none, none⟩ none fun _ => "").2.1 none
      fun _ => "").1 = "" ∧
    (getClientBundle (getClientBundle ⟨none, none⟩ none fun _ => "").2.1 none
      fun _ => "").2.2 = true :=
  ⟨rfl, rfl, rfl, rfl⟩

/-- C7 as amended: provided the compiled bundle is a non-empty string (an
empty string is falsy in JavaScript, so an empty cached bundle counts as
absent), calling the resolver, installing the returned cache, and calling
again returns the identical bundle with the identical cache, and the second
call never invokes the compiler — so across the two calls the compiler runs
at most once. The same holds for the CSS resolver when its compiler
succeeds with a non-empty bundle. -/
theorem c7_asset_resolution_idempotent (cache : AssetCache)
    (prebuiltJs prebuiltCss : Option String) (compile : Unit → String)
    (cssCompiler : Unit → Except String String) (s : String)
    (hjs : compile () ≠ "") (hcss : cssCompiler () = .ok s) (hs : s ≠ "") :
    (getClientBundle (getClientBundle cache prebuiltJs compile).2.1 prebuiltJs
        compile =
      ((getClientBundle cache prebuiltJs compile).1,
       (getClientBundle cache prebuiltJs compile).2.1, false)) ∧
    (∃ r1 : String × AssetCache × Bool,
      getCSSBundle cache prebuiltCss (some cssCompiler) = .ok r1 ∧
      getCSSBundle r1.2.1 prebuiltCss (some cssCompiler) =
        .ok (r1.1, r1.2.1, false)) := by
  constructor
  · by_cases t1 : truthy cache.clientBundle
    · have h1 : getClientBundle cache prebuiltJs compile =
          (cache.clientBundle.getD "", cache, false) := by
        simp [getClientBundle, t1]
      simp [h1, getClientBundle, t1]
    · by_cases t2 : truthy prebuiltJs
      · have h1 : getClientBundle cache prebuiltJs compile =
            (prebuiltJs.getD "", { cache with clientBundle := prebuiltJs }, false) := by
          simp [getClientBundle, t1, t2]
        simp [h1, getClientBundle, t1, t2]
      · have h1 : getClientBundle cache prebuiltJs compile =
            (compile (), { cache with clientBundle := some (compile ()) }, true) := by
          simp [getClientBundle, t1, t2]
        have h2 : truthy (some (compile ())) = true := by simp [truthy, hjs]
        simp [h1, getClientBundle, t1, t2, h2]
  · by_cases t1 : truthy cache.cssBundle
    · have h1 : getCSSBundle cache prebuiltCss (some cssCompiler) =
          .ok (cache.cssBundle.getD "", cache, false) := by
        simp [getCSSBundle, t1]
      exact ⟨_, h1, by simp [getCSSBundle, t1]⟩
    · by_cases t2 : truthy prebuiltCss
      · have h1 : getCSSBundle cache prebuiltCss (some cssCompiler) =
            .ok (prebuiltCss.getD "", { cache with cssBundle := prebuiltCss }, false) := by
          simp [getCSSBundle, t1, t2]
        exact ⟨_, h1, by simp [getCSSBundle, t2]⟩
      · have h1 : getCSSBundle cache prebuiltCss (some cssCompiler) =
            .ok (s, { cache with cssBundle := some s }, true) := by
          simp [getCSSBundle, t1, t2, hcss]
        have h2 : truthy (some s) = true := by simp [truthy, hs]
        exact ⟨_, h1, by simp [getCSSBundle, h2]⟩

/-- C7 as amended at a concrete input: empty cache, no prebuilt artifacts,
compilers producing non-empty bundles. -/
theorem c7_asset_resolution_idempotent_witness :
    (getClientBundle (getClientBundle ⟨none, none⟩ none fun _ => "js").2.1 none
        (fun _ => "js") =
      ((getClientBundle ⟨none, none⟩ none fun _ => "js").1,
       (getClientBundle ⟨none, none⟩ none fun _ => "js").2.1, false)) ∧
    (∃ r1 : String × AssetCache × Bool,
      getCSSBundle ⟨none, none⟩ none (some fun _ => .ok "css") = .ok r1 ∧
      getCSSBundle r1.2.1 none (some fun _ => .ok "css") =
        .ok (r1.1, r1.2.1, false)) :=
  c7_asset_resolution_idempotent ⟨none, none⟩ none none (fun _ => "js")
    (fun _ => .ok "css") "css" (by decide) rfl (by decide)

/-- C8: with no cached and no prebuilt CSS bundle, a CSS compiler failure
propagates out of `getCSSBundle` as the same error, and `handleCSSRequest`
turns it into a 500 response carrying the fallback body while returning the
asset cache unchanged. -/
theorem c8_css_compiler_failure_propagates (cache : AssetCache)
    (prebuilt : Option String) (compiler : Unit → Except String String)
    (e : String) (isDev : Bool) (hcache : cache.cssBundle = none)
    (hpre : prebuilt = none) (hcomp : compiler () = .error e) :
    getCSSBundle cache prebuilt (some compiler) = .error e ∧
    (handleCSSRequest cache prebuilt (some compiler) isDev).1.status = 500 ∧
    (handleCSSRequest cache prebuilt (some compiler) isDev).1.body =
      "/* CSS compilation failed */" ∧
    (handleCSSRequest cache prebuilt (some compiler) isDev).2 = cache := by
  have hg : getCSSBundle cache prebuilt (some compiler) = .error e := by
    simp [getCSSBundle, hcache, hpre, truthy, hcomp]
  refine ⟨hg, ?_, ?_, ?_⟩ <;>
    simp [handleCSSRequest, hg, createAssetErrorResponse]

/-- C8 at a concrete input: an empty cache and a compiler that throws. -/
theorem c8_css_compiler_failure_witness :
    getCSSBundle ⟨none, none⟩ none (some fun _ => .error "boom") = .error "boom" ∧
    (handleCSSRequest ⟨none, none⟩ none (some fun _ => .error "boom") false).1.status =
      500 ∧
    (handleCSSRequest ⟨none, none⟩ none (some fun _ => .error "boom") false).1.body =
      "/* CSS compilation failed */" ∧
    (handleCSSRequest ⟨none, none⟩ none (some fun _ => .error "boom") false).2 =
      ⟨none, none⟩ :=
  c8_css_compiler_failure_propagates ⟨none, none⟩ none (fun _ => .error "boom")
    "boom" false rfl rfl rfl

end Rapid
